import Mathlib

/-!
Shallow embedding of the data-access and session core of the flight-management
system (`DBManager.cpp` and the feed pagination loop of `Pages/Discovery.qml`).

The relational store reached through the connection handle is modelled
explicitly: the three tables (`admin_info`, `t_users`, `flight`) are lists of
rows inside a `DBState`, together with the connection flag and the two
in-memory session objects.  Driver behaviour that the code observes only as a
boolean (`QSqlQuery::prepare` / `QSqlQuery::exec` succeeding or failing) is
passed to each operation as an explicit boolean parameter; the SHA-256 digest
(`QCryptographicHash`, an external library) is passed as an explicit
`String → String` parameter where the code uses it.
-/

/-- A row of the `admin_info` table: `Aid`, `Admin_name`, `Password`. -/
structure AdminRow where
  aid : Int
  name : String
  password : String
deriving DecidableEq

/-- A row of the `t_users` table: `id`, `email`, `username`, `password`. -/
structure UserRow where
  uid : Int
  email : String
  username : String
  password : String
deriving DecidableEq

/-- A row of the `flight` table. -/
structure Flight where
  flightId : String
  departure : String
  destination : String
  departTime : String
  arriveTime : String
  price : Rat
  totalSeats : Int
  remainSeats : Int
deriving DecidableEq

/-- The state owned by the `DBManager` singleton: the connection flag, the
admin session fields, the user session fields, and the backing tables. -/
structure DBState where
  connOpen : Bool
  isAdminLoggedIn : Bool
  currentAdminId : Int
  currentAdminName : String
  isUserLoggedIn : Bool
  currentUserId : Int
  currentUserName : String
  currentUserEmail : String
  admins : List AdminRow
  users : List UserRow
  flights : List Flight
deriving DecidableEq

/-- One pass of the character loop of `DBManager::isValidPasswordStrength`:
`hasLetter` is set when the character is a letter, otherwise `hasNumber` is set
when it is a digit (the `else if` of the source), and the loop breaks early as
soon as both flags hold. -/
def pwScan : List Char → Bool → Bool → Bool
  | [], hasLetter, hasNumber => hasLetter && hasNumber
  | c :: cs, hasLetter, hasNumber =>
    let hasLetter' := if c.isAlpha then true else hasLetter
    let hasNumber' := if !c.isAlpha && c.isDigit then true else hasNumber
    if hasLetter' && hasNumber' then true else pwScan cs hasLetter' hasNumber'

/-- `DBManager::isValidPasswordStrength`: reject when shorter than 8, else scan
the characters for a letter and a digit. -/
def isValidPasswordStrength (password : String) : Bool :=
  if password.length < 8 then false
  else pwScan password.data false false

/-- A character allowed in the local part of `DBManager::isValidEmailFormat`'s
pattern: `[a-zA-Z0-9._%+-]`. -/
def isLocalChar (c : Char) : Bool :=
  c.isAlpha || c.isDigit || c == '.' || c == '_' || c == '%' || c == '+' || c == '-'

/-- A character allowed in the domain part before the final dot: `[a-zA-Z0-9.-]`. -/
def isDomainChar (c : Char) : Bool :=
  c.isAlpha || c.isDigit || c == '.' || c == '-'

/-- Split a character list at the first occurrence of `sep`; `none` when `sep`
does not occur. -/
def splitAtChar (sep : Char) : List Char → Option (List Char × List Char)
  | [] => none
  | c :: cs =>
    if c == sep then some ([], cs)
    else match splitAtChar sep cs with
      | some (l, r) => some (c :: l, r)
      | none => none

/-- Split a character list at the last occurrence of `sep`; `none` when `sep`
does not occur. -/
def splitAtLastChar (sep : Char) : List Char → Option (List Char × List Char)
  | [] => none
  | c :: cs =>
    match splitAtLastChar sep cs with
    | some (l, r) => some (c :: l, r)
    | none => if c == sep then some ([], cs) else none

/-- `DBManager::isValidEmailFormat`, the anchored pattern
`^[a-zA-Z0-9._%+-]+@[a-zA-Z0-9.-]+\.[a-zA-Z]\x7b2,\x7d$`: a non-empty local
part, one `@` (neither class allows `@`), a non-empty domain part over
`[a-zA-Z0-9.-]`, and — after the last dot, since the TLD class allows no dot
and is anchored at the end — at least two letters. -/
def isValidEmailFormat (email : String) : Bool :=
  match splitAtChar '@' email.data with
  | none => false
  | some (localPart, rest) =>
    localPart.length > 0 && localPart.all isLocalChar && !rest.contains '@' &&
    match splitAtLastChar '.' rest with
    | none => false
    | some (domainPart, tld) =>
      domainPart.length > 0 && domainPart.all isDomainChar &&
      tld.length ≥ 2 && tld.all Char.isAlpha

/-- A parsed `yyyy-MM-dd HH:mm:ss` timestamp. -/
structure DateTime where
  year : Nat
  month : Nat
  day : Nat
  hour : Nat
  minute : Nat
  second : Nat
deriving DecidableEq

/-- Gregorian leap-year rule (as used by `QDate`). -/
def isLeapYear (y : Nat) : Bool :=
  (y % 4 == 0 && y % 100 != 0) || y % 400 == 0

/-- Days in a month of the proleptic Gregorian calendar. -/
def daysInMonth (y m : Nat) : Nat :=
  if m == 2 then (if isLeapYear y then 29 else 28)
  else if m == 4 || m == 6 || m == 9 || m == 11 then 30
  else 31

/-- `QDate`/`QTime` validity of the parsed fields (year 0 does not exist). -/
def DateTime.valid (t : DateTime) : Prop :=
  t.year ≠ 0 ∧ 1 ≤ t.month ∧ t.month ≤ 12 ∧ 1 ≤ t.day ∧
    t.day ≤ daysInMonth t.year t.month ∧ t.hour ≤ 23 ∧ t.minute ≤ 59 ∧ t.second ≤ 59

instance (t : DateTime) : Decidable t.valid := by
  unfold DateTime.valid; infer_instance

/-- Numeric value of a decimal digit character. -/
def digitVal (c : Char) : Nat := c.toNat - 48

/-- `QDateTime::fromString(s, "yyyy-MM-dd HH:mm:ss")`: the whole string must
match the fixed 19-character pattern and the fields must form a valid
date-time; otherwise the result is invalid (`none`). -/
def parseDateTime (s : String) : Option DateTime :=
  match s.data with
  | [y1, y2, y3, y4, m1, mo1, mo2, m2, d1, d2, m3, h1, h2, m4, n1, n2, m5, e1, e2] =>
    if y1.isDigit && y2.isDigit && y3.isDigit && y4.isDigit && m1 == '-' &&
       mo1.isDigit && mo2.isDigit && m2 == '-' && d1.isDigit && d2.isDigit &&
       m3 == ' ' && h1.isDigit && h2.isDigit && m4 == ':' && n1.isDigit &&
       n2.isDigit && m5 == ':' && e1.isDigit && e2.isDigit then
      let t : DateTime :=
        ⟨digitVal y1 * 1000 + digitVal y2 * 100 + digitVal y3 * 10 + digitVal y4,
         digitVal mo1 * 10 + digitVal mo2, digitVal d1 * 10 + digitVal d2,
         digitVal h1 * 10 + digitVal h2, digitVal n1 * 10 + digitVal n2,
         digitVal e1 * 10 + digitVal e2⟩
      if t.valid then some t else none
    else none
  | _ => none

/-- `DBManager::isValidDateTimeFormat`: parse with the fixed pattern and test
`QDateTime::isValid`. -/
def isValidDateTimeFormat (dateStr : String) : Bool :=
  (parseDateTime dateStr).isSome

/-- Chronological key of a valid date-time: fields are radix-packed, so on
valid timestamps the key order is the `QDateTime` order. -/
def dtKey (t : DateTime) : Nat :=
  ((((t.year * 100 + t.month) * 100 + t.day) * 100 + t.hour) * 100 + t.minute) * 100 + t.second

/-- The comparison `fromString(depart) < fromString(arrive)` performed by
`DBManager::addFlight` after both strings passed the format check. -/
def dtLtB (depart arrive : String) : Bool :=
  match parseDateTime depart, parseDateTime arrive with
  | some d, some a => decide (dtKey d < dtKey a)
  | _, _ => false

/-- The digest parameter used where the source calls
`QCryptographicHash::hash(..., Sha256).toHex()` (an external library): any
`String → String` stands in for it in the theorems.  `modelDigest` is the
concrete instance used by witnesses and counterexamples; like the real hex
digest it is deterministic and always 64 hexadecimal characters long, the only
properties the claims rely on. -/
def hexChar (n : Nat) : Char :=
  if n < 10 then Char.ofNat (48 + n) else Char.ofNat (87 + n)

/-- Concrete 64-hex-character stand-in for the SHA-256 hex digest. -/
def modelDigest (s : String) : String :=
  String.mk (List.replicate 64 (hexChar (s.data.foldl (fun a c => (a * 31 + c.toNat) % 16) 7)))

/-- `SELECT ... FROM admin_info WHERE Admin_name = ? AND Password = ?`:
the first row matching both bound values.  The password is bound exactly as
`DBManager::verifyAdminLogin` binds it. -/
def findAdmin (admins : List AdminRow) (name pw : String) : Option AdminRow :=
  admins.find? (fun r => r.name == name && r.password == pw)

/-- `DBManager::verifyAdminLogin`.  `execOk` is the driver's verdict on
`query.exec()`.  Returns the C++ return value, the message carried by the
emitted failure signal (empty on success), and the state after the call. -/
def verifyAdminLogin (execOk : Bool) (st : DBState) (adminName password : String) :
    Bool × String × DBState :=
  if !st.connOpen then (false, "数据库未连接", st)
  else if adminName.isEmpty || password.isEmpty then (false, "用户名或密码不能为空", st)
  else if !execOk then (false, "查询失败: ", st)
  else match findAdmin st.admins adminName password with
    | some row =>
      (true, "",
       { st with isAdminLoggedIn := true, currentAdminId := row.aid,
                 currentAdminName := row.name })
    | none =>
      (false, "用户名或密码错误",
       { st with isAdminLoggedIn := false, currentAdminId := -1, currentAdminName := "" })

/-- `DBManager::adminLogout`: unconditionally clear the admin session and emit
the success signal (the boolean records that the call reported success). -/
def adminLogout (st : DBState) : DBState × Bool :=
  ({ st with isAdminLoggedIn := false, currentAdminId := -1, currentAdminName := "" }, true)

/-- `DBManager::userLogout`: unconditionally clear the user session and emit
`operateResult(true, "登出成功！")`. -/
def userLogout (st : DBState) : DBState × Bool × String :=
  ({ st with isUserLoggedIn := false, currentUserId := -1,
             currentUserName := "", currentUserEmail := "" },
   true, "登出成功！")

/-- `DBManager::disconnectDB`: close the handle when open, then reset the user
login state (`m_isUserLoggedIn`, id, name, email); the admin fields are not
touched by this function. -/
def disconnectDB (st : DBState) : DBState :=
  { st with connOpen := false, isUserLoggedIn := false, currentUserId := -1,
            currentUserName := "", currentUserEmail := "" }

/-- `DBManager::isUsernameExists`: the `SELECT username FROM t_users WHERE
username = :username` probe has a row. -/
def isUsernameExists (st : DBState) (username : String) : Bool :=
  st.users.any (fun r => r.username == username)

/-- `DBManager::isEmailExists`: the `SELECT email FROM t_users WHERE
email = :email` probe has a row. -/
def isEmailExists (st : DBState) (email : String) : Bool :=
  st.users.any (fun r => r.email == email)

/-- `DBManager::userRegister`.  `hash` stands for `encryptPassword` (SHA-256),
`prepareOk`/`execOk` for the driver's verdicts on the `INSERT` statement.
Returns the C++ return value, the emitted message, and the resulting state;
the inserted row receives the store-assigned auto-increment id. -/
def userRegister (hash : String → String) (prepareOk execOk : Bool) (st : DBState)
    (email username password : String) : Bool × String × DBState :=
  if !st.connOpen then (false, "注册失败：数据库未连接！", st)
  else if email.isEmpty || username.isEmpty || password.isEmpty then
    (false, "注册失败：邮箱、用户名、密码不能为空！", st)
  else if !isValidEmailFormat email then (false, "注册失败：邮箱格式错误！", st)
  else if !isValidPasswordStrength password then
    (false, "注册失败：密码至少8位，且包含字母和数字！", st)
  else if isUsernameExists st username then
    (false, "注册失败：用户名 " ++ username ++ " 已存在！", st)
  else if isEmailExists st email then
    (false, "注册失败：邮箱 " ++ email ++ " 已被注册！", st)
  else if !prepareOk then (false, "注册失败：数据库操作错误！", st)
  else if execOk then
    (true, "注册成功！",
     { st with users := st.users ++ [⟨(st.users.length : Int) + 1, email, username, hash password⟩] })
  else (false, "注册失败：", st)

/-- `SELECT ... FROM flight WHERE Flight_id = :flightId`: the first row with
the bound id. -/
def findFlight (st : DBState) (flightId : String) : Option Flight :=
  st.flights.find? (fun f => f.flightId == flightId)

/-- `DBManager::queryFlightByNum`.  `prepareOk`/`execOk` are the driver's
verdicts on `query.prepare` and `query.exec`.  Returns the (possibly empty)
result and the message of the emitted `operateResult` signal. -/
def queryFlightByNum (prepareOk execOk : Bool) (st : DBState) (flightId : String) :
    Option Flight × String :=
  if !st.connOpen then (none, "查询失败：数据库未连接！")
  else if !prepareOk then (none, "[DB] 查询预处理失败：")
  else match (if execOk then findFlight st flightId else none) with
    | some f => (some f, "查询成功！")
    | none => (none, "查询失败：未找到该航班或查询出错！")

/-- `DBManager::addFlight`.  `checkExecOk` is the driver's verdict on the
duplicate-id probe, `prepareOk`/`execOk` on the `INSERT`.  Returns the C++
return value, the emitted message, and the resulting state. -/
def addFlight (checkExecOk prepareOk execOk : Bool) (st : DBState)
    (flightId departure destination departTime arriveTime : String)
    (price : Rat) (totalSeats remainSeats : Int) : Bool × String × DBState :=
  if !st.connOpen then (false, "添加失败：数据库未连接！", st)
  else if flightId.isEmpty || departure.isEmpty || destination.isEmpty then
    (false, "添加失败：航班号、出发地、目的地不能为空！", st)
  else if !isValidDateTimeFormat departTime || !isValidDateTimeFormat arriveTime then
    (false, "添加失败：时间格式错误！请输入 YYYY-MM-DD HH:MM:SS", st)
  else if !dtLtB departTime arriveTime then
    (false, "添加失败：起飞时间不能晚于降落时间！", st)
  else if price ≤ 0 then (false, "添加失败：票价必须大于 0！", st)
  else if totalSeats ≤ 0 || remainSeats < 0 || totalSeats < remainSeats then
    (false, "添加失败：座位数无效（剩余座位不能大于总座位，且不能为负）！", st)
  else if checkExecOk && (findFlight st flightId).isSome then
    (false, "添加失败：航班号 " ++ flightId ++ " 已存在！", st)
  else if !prepareOk then (false, "[DB] 插入预处理失败：", st)
  else if execOk then
    (true, "航班 " ++ flightId ++ " 添加成功！",
     { st with flights := st.flights ++
        [⟨flightId, departure, destination, departTime, arriveTime, price, totalSeats, remainSeats⟩] })
  else (false, "[DB] 插入失败：", st)

/-- `DBManager::updateFlightSeats`.  `fetchExecOk` is the driver's verdict on
the total-seats probe (the source merges its failure with the no-row case),
`prepareOk`/`execOk` on the `UPDATE`, and `affectedPos` records whether the
driver reported a positive `numRowsAffected` (the source returns `success`
regardless of it). -/
def updateFlightSeats (fetchExecOk prepareOk execOk affectedPos : Bool) (st : DBState)
    (flightId : String) (newRemainSeats : Int) : Bool × String × DBState :=
  if !st.connOpen then (false, "更新失败：数据库未连接！", st)
  else match (if fetchExecOk then findFlight st flightId else none) with
    | none => (false, "更新失败：未找到航班 " ++ flightId ++ "! ", st)
    | some f =>
      if newRemainSeats < 0 || f.totalSeats < newRemainSeats then
        (false, "更新失败：剩余座位不能小于 0 或大于总座位（" ++ toString f.totalSeats ++ "）！", st)
      else if !prepareOk then (false, "[DB]  更新预处理失败：", st)
      else if execOk then
        (true,
         if affectedPos then "航班 " ++ flightId ++ " 剩余座位更新为 " ++ toString newRemainSeats ++ "！"
         else "[DB] 更新失败：",
         { st with flights := (st.flights.map fun g =>
             if g.flightId == flightId then { g with remainSeats := newRemainSeats } else g) })
      else (false, "[DB] 更新失败：", st)

/-- The backward-scan loop of `next_page.onClicked` in `Pages/Discovery.qml`:
`present i` models "`queryPostDetail(i, viewer)` returns a non-empty object".
Starting from candidate `i`, return immediately with no post once the
candidate reaches 0, otherwise fetch candidate `i`, take it if non-empty, and
continue with `i - 1`. -/
def scanPrev (present : Nat → Bool) : Nat → Option Nat
  | 0 => none
  | i + 1 => if present (i + 1) then some (i + 1) else scanPrev present i

/-- One backward pagination step from the currently displayed post id `cur`:
the QML handler starts the scan at `posts_list[current_post_index] - 1`. -/
def prevStep (present : Nat → Bool) (cur : Nat) : Option Nat :=
  scanPrev present (cur - 1)

/-- The concrete sparse feed of the specification's pagination scenario:
exactly the posts with ids 1, 2, 5 and 7 exist. -/
def examplePresent (i : Nat) : Bool :=
  i == 1 || i == 2 || i == 5 || i == 7

/-- The specification's admin-login success condition (claim C1 wording): the
connection is open, both inputs are non-empty, and an `admin_info` row matches
the name together with the one-way hash of the supplied password. -/
def specAdminLoginOk (hash : String → String) (st : DBState) (name pw : String) : Prop :=
  st.connOpen = true ∧ name ≠ "" ∧ pw ≠ "" ∧
    ∃ r ∈ st.admins, r.name = name ∧ r.password = hash pw

instance (hash : String → String) (st : DBState) (name pw : String) :
    Decidable (specAdminLoginOk hash st name pw) := by
  unfold specAdminLoginOk; infer_instance

/-- The message of the first failed check in an ordered list of
`(check passed, failure message)` pairs; `none` when every check passed. -/
def firstFailureMsg : List (Bool × String) → Option String
  | [] => none
  | (ok, msg) :: rest => if ok then firstFailureMsg rest else some msg

/-- The ordered validation list the specification prescribes for
`userRegister`: non-empty fields, email format, password strength, username
uniqueness, email uniqueness. -/
def userRegisterChecks (st : DBState) (email username password : String) :
    List (Bool × String) :=
  [ (!(email.isEmpty || username.isEmpty || password.isEmpty),
      "注册失败：邮箱、用户名、密码不能为空！"),
    (isValidEmailFormat email, "注册失败：邮箱格式错误！"),
    (isValidPasswordStrength password, "注册失败：密码至少8位，且包含字母和数字！"),
    (!isUsernameExists st username, "注册失败：用户名 " ++ username ++ " 已存在！"),
    (!isEmailExists st email, "注册失败：邮箱 " ++ email ++ " 已被注册！") ]

/-- The ordered validation list the specification prescribes for `addFlight`:
non-empty strings, timestamp format, depart before arrive, positive price,
seat bounds, unused id. -/
def addFlightChecks (st : DBState) (flightId departure destination departTime arriveTime : String)
    (price : Rat) (totalSeats remainSeats : Int) : List (Bool × String) :=
  [ (!(flightId.isEmpty || departure.isEmpty || destination.isEmpty),
      "添加失败：航班号、出发地、目的地不能为空！"),
    (isValidDateTimeFormat departTime && isValidDateTimeFormat arriveTime,
      "添加失败：时间格式错误！请输入 YYYY-MM-DD HH:MM:SS"),
    (dtLtB departTime arriveTime, "添加失败：起飞时间不能晚于降落时间！"),
    (decide (0 < price), "添加失败：票价必须大于 0！"),
    (decide (0 < totalSeats) && decide (0 ≤ remainSeats) && decide (remainSeats ≤ totalSeats),
      "添加失败：座位数无效（剩余座位不能大于总座位，且不能为负）！"),
    (!(findFlight st flightId).isSome, "添加失败：航班号 " ++ flightId ++ " 已存在！") ]

theorem char_isDigit_isAlpha (c : Char) (h : c.isDigit = true) : c.isAlpha = false := by
  have e48 : ((48 : UInt32)).toBitVec.toNat = 48 := rfl
  have e57 : ((57 : UInt32)).toBitVec.toNat = 57 := rfl
  have e65 : ((65 : UInt32)).toBitVec.toNat = 65 := rfl
  have e90 : ((90 : UInt32)).toBitVec.toNat = 90 := rfl
  have e97 : ((97 : UInt32)).toBitVec.toNat = 97 := rfl
  have e122 : ((122 : UInt32)).toBitVec.toNat = 122 := rfl
  simp only [Char.isDigit, Char.isAlpha, Char.isUpper, Char.isLower, Bool.and_eq_true,
    Bool.or_eq_false_iff, Bool.and_eq_false_iff, decide_eq_true_eq, decide_eq_false_iff_not,
    not_le, UInt32.le_def, UInt32.lt_def, BitVec.le_def, BitVec.lt_def] at *
  omega

theorem pwScan_eq (cs : List Char) : ∀ hl hn : Bool,
    pwScan cs hl hn = ((hl || cs.any Char.isAlpha) && (hn || cs.any Char.isDigit)) := by
  induction cs with
  | nil => intro hl hn; simp [pwScan]
  | cons c cs ih =>
    intro hl hn
    by_cases ha : c.isAlpha = true
    · have hd : c.isDigit = false := by
        by_contra hcon
        rw [Bool.not_eq_false] at hcon
        rw [char_isDigit_isAlpha c hcon] at ha
        exact Bool.false_ne_true ha
      cases hn with
      | true => simp [pwScan, ha, hd]
      | false => simp [pwScan, ha, hd, ih]
    · rw [Bool.not_eq_true] at ha
      by_cases hd : c.isDigit = true
      · cases hl with
        | true => simp [pwScan, ha, hd]
        | false => simp [pwScan, ha, hd, ih]
      · rw [Bool.not_eq_true] at hd
        cases hl with
        | true =>
          cases hn with
          | true => simp [pwScan, ha, hd]
          | false => simp [pwScan, ha, hd, ih]
        | false => simp [pwScan, ha, hd, ih]

theorem scanPrev_eq_some (present : Nat → Bool) (n : Nat) : ∀ j : Nat,
    scanPrev present n = some j ↔
      (1 ≤ j ∧ j ≤ n ∧ present j = true ∧ ∀ k, j < k → k ≤ n → present k = false) := by
  induction n with
  | zero =>
    intro j
    simp only [scanPrev]
    constructor
    · intro h; exact absurd h (by simp)
    · rintro ⟨h1, h2, -, -⟩; omega
  | succ n ih =>
    intro j
    constructor
    · intro h
      simp only [scanPrev] at h
      by_cases hp : present (n + 1) = true
      · rw [if_pos hp] at h
        obtain rfl : n + 1 = j := by simpa using h
        exact ⟨by omega, by omega, hp, fun k hk1 hk2 => by omega⟩
      · rw [if_neg hp] at h
        obtain ⟨h1, h2, h3, h4⟩ := (ih j).mp h
        refine ⟨h1, by omega, h3, fun k hk1 hk2 => ?_⟩
        rcases Nat.lt_or_ge k (n + 1) with hlt | hge
        · exact h4 k hk1 (by omega)
        · have : k = n + 1 := by omega
          subst this
          exact Bool.not_eq_true _ |>.mp hp
    · rintro ⟨h1, h2, h3, h4⟩
      simp only [scanPrev]
      by_cases hp : present (n + 1) = true
      · have : j = n + 1 := by
          by_contra hne
          have : present (n + 1) = false := h4 (n + 1) (by omega) (by omega)
          simp [hp] at this
        subst this
        rw [if_pos hp]
      · rw [if_neg hp]
        have h2' : j ≤ n := by
          rcases Nat.lt_or_ge j (n + 1) with h | h
          · omega
          · have : j = n + 1 := by omega
            subst this; exact absurd h3 hp
        exact (ih j).mpr ⟨h1, h2', h3, fun k hk1 hk2 => h4 k hk1 (by omega)⟩

theorem scanPrev_eq_none (present : Nat → Bool) (n : Nat) :
    scanPrev present n = none ↔ ∀ k, 1 ≤ k → k ≤ n → present k = false := by
  induction n with
  | zero => simp [scanPrev]; omega
  | succ n ih =>
    simp only [scanPrev]
    by_cases hp : present (n + 1) = true
    · rw [if_pos hp]
      simp only [reduceCtorEq, false_iff, not_forall]
      exact ⟨n + 1, by omega, by omega, by simp [hp]⟩
    · rw [if_neg hp]
      rw [ih]
      constructor
      · intro h k hk1 hk2
        rcases Nat.lt_or_ge k (n + 1) with hlt | hge
        · exact h k hk1 (by omega)
        · have : k = n + 1 := by omega
          subst this
          exact Bool.not_eq_true _ |>.mp hp
      · intro h k hk1 hk2
        exact h k hk1 (by omega)

theorem string_isEmpty_false_of_ne (s : String) (h : s ≠ "") : s.isEmpty = false := by
  rw [Bool.eq_false_iff]
  intro hc
  exact h ((String.isEmpty_iff s).mp hc)

theorem findAdmin_isSome_iff (admins : List AdminRow) (name pw : String) :
    (findAdmin admins name pw).isSome ↔ ∃ r ∈ admins, r.name = name ∧ r.password = pw := by
  rw [findAdmin, List.find?_isSome]
  constructor
  · rintro ⟨r, hr, hp⟩
    simp only [Bool.and_eq_true, beq_iff_eq] at hp
    exact ⟨r, hr, hp⟩
  · rintro ⟨r, hr, h1, h2⟩
    exact ⟨r, hr, by simp [h1, h2]⟩

/-- C9: `isValidPasswordStrength` returns true exactly when the password has
length at least 8, contains at least one alphabetic character and at least one
digit; there is no upper length bound and no special-character requirement. -/
theorem c9_passwordStrength_iff : ∀ s : String,
    isValidPasswordStrength s = true ↔
      (8 ≤ s.length ∧ s.data.any Char.isAlpha = true ∧ s.data.any Char.isDigit = true) := by
  intro s
  rw [isValidPasswordStrength]
  by_cases h : s.length < 8
  · rw [if_pos h]
    simp only [Bool.false_eq_true, false_iff, not_and]
    intro h8
    omega
  · rw [if_neg h, pwScan_eq]
    have h8 : 8 ≤ s.length := by omega
    simp [h8]

/-- Witness for C9 at the concrete password `"passw0rd"`. -/
theorem c9_passwordStrength_witness : isValidPasswordStrength "passw0rd" = true :=
  (c9_passwordStrength_iff "passw0rd").mpr (by decide)

/-- C6: the backward pagination step of `Discovery.qml` examines candidate ids
`cur - 1, cur - 2, …` in strictly descending order, skips absent ids, yields
the first present id, terminates with no post once the candidate reaches 0;
and on the concrete feed with exactly posts 1, 2, 5, 7 present, stepping
backward from 7 yields 5, then 2, then 1, and then no earlier post. -/
theorem c6_backward_pagination :
    (∀ (present : Nat → Bool) (cur j : Nat),
      prevStep present cur = some j ↔
        (1 ≤ j ∧ j < cur ∧ present j = true ∧
         ∀ k, j < k → k < cur → present k = false)) ∧
    (∀ (present : Nat → Bool) (cur : Nat),
      prevStep present cur = none ↔ ∀ k, 1 ≤ k → k < cur → present k = false) ∧
    (prevStep examplePresent 7 = some 5 ∧ prevStep examplePresent 5 = some 2 ∧
     prevStep examplePresent 2 = some 1 ∧ prevStep examplePresent 1 = none) := by
  refine ⟨?_, ?_, by decide, by decide, by decide, by decide⟩
  · intro present cur j
    rw [prevStep, scanPrev_eq_some]
    constructor
    · rintro ⟨h1, h2, h3, h4⟩
      exact ⟨h1, by omega, h3, fun k hk1 hk2 => h4 k hk1 (by omega)⟩
    · rintro ⟨h1, h2, h3, h4⟩
      exact ⟨h1, by omega, h3, fun k hk1 hk2 => h4 k hk1 (by omega)⟩
  · intro present cur
    rw [prevStep, scanPrev_eq_none]
    constructor
    · intro h k hk1 hk2
      exact h k hk1 (by omega)
    · intro h k hk1 hk2
      exact h k hk1 (by omega)

/-- Witness for C6: the first backward step of the concrete scenario. -/
theorem c6_backward_pagination_witness : prevStep examplePresent 7 = some 5 :=
  c6_backward_pagination.2.2.1

/-- C8: `userLogout` and `adminLogout` are unconditional and idempotent: from
every state each reports success, clears the respective session (id, name, and
email for the user), and a second call is identical to the first. -/
theorem c8_logout_idempotent : ∀ st : DBState,
    ((userLogout st).2.1 = true ∧
     (userLogout st).1.isUserLoggedIn = false ∧
     (userLogout st).1.currentUserId = -1 ∧
     (userLogout st).1.currentUserName = "" ∧
     (userLogout st).1.currentUserEmail = "" ∧
     userLogout (userLogout st).1 = userLogout st) ∧
    ((adminLogout st).2 = true ∧
     (adminLogout st).1.isAdminLoggedIn = false ∧
     (adminLogout st).1.currentAdminId = -1 ∧
     (adminLogout st).1.currentAdminName = "" ∧
     adminLogout (adminLogout st).1 = adminLogout st) := by
  intro st
  refine ⟨⟨rfl, rfl, rfl, rfl, rfl, rfl⟩, ⟨rfl, rfl, rfl, rfl, rfl⟩⟩

/-- Witness for C8 at a concrete logged-in state. -/
theorem c8_logout_idempotent_witness :
    (userLogout ⟨true, true, 7, "root", true, 3, "bob", "b@c.de", [], [], []⟩).1.isUserLoggedIn
      = false :=
  (c8_logout_idempotent ⟨true, true, 7, "root", true, 3, "bob", "b@c.de", [], [], []⟩).1.2.1

/-- Counterexample for C2: after `disconnectDB` from a state in which an admin
is logged in, `isAdminLoggedIn` is still true — the admin session is not reset
to its logged-out values, contrary to the claim. -/
theorem c2_disconnect_cex :
    ¬ ((disconnectDB ⟨true, true, 7, "root", true, 3, "bob", "b@c.de", [], [], []⟩).isAdminLoggedIn
        = false) := by
  decide

/-- C2 (amended): `disconnectDB` closes the connection and resets the user
session (flag false, id -1, name and email cleared) but leaves all three admin
session fields unchanged. -/
theorem c2_disconnect_resets_user_only : ∀ st : DBState,
    (disconnectDB st).connOpen = false ∧
    (disconnectDB st).isUserLoggedIn = false ∧
    (disconnectDB st).currentUserId = -1 ∧
    (disconnectDB st).currentUserName = "" ∧
    (disconnectDB st).currentUserEmail = "" ∧
    (disconnectDB st).isAdminLoggedIn = st.isAdminLoggedIn ∧
    (disconnectDB st).currentAdminId = st.currentAdminId ∧
    (disconnectDB st).currentAdminName = st.currentAdminName := by
  intro st
  exact ⟨rfl, rfl, rfl, rfl, rfl, rfl, rfl, rfl⟩

/-- Witness for C2 (amended) at a concrete logged-in state. -/
theorem c2_disconnect_witness :
    (disconnectDB ⟨true, false, -1, "", true, 3, "bob", "b@c.de", [], [], []⟩).isUserLoggedIn
      = false :=
  (c2_disconnect_resets_user_only ⟨true, false, -1, "", true, 3, "bob", "b@c.de", [], [], []⟩).2.1

/-- Counterexample for C1: in a state whose `admin_info` row stores the
one-way digest of the password — exactly what the claim says is compared —
`verifyAdminLogin` with the correct password returns false, because the source
binds the plaintext password into the query instead of its hash.  The claimed
biconditional is therefore false at this input. -/
theorem c1_adminLogin_hash_cex :
    ¬ (((verifyAdminLogin true
          ⟨true, false, -1, "", false, -1, "", "",
           [⟨1, "admin", modelDigest "secret123"⟩], [], []⟩
          "admin" "secret123").1 = true) ↔
        specAdminLoginOk modelDigest
          ⟨true, false, -1, "", false, -1, "", "",
           [⟨1, "admin", modelDigest "secret123"⟩], [], []⟩
          "admin" "secret123") := by
  decide

/-- C1 (amended): `verifyAdminLogin` returns true and transitions the admin
session to the matched row's id and name exactly when the connection is open,
both inputs are non-empty, and a row whose stored `Password` equals the
supplied password as given — the plaintext, not its hash — exists. -/
theorem c1_adminLogin_plaintext_iff : ∀ (st : DBState) (name pw : String),
    ((verifyAdminLogin true st name pw).1 = true ↔
      (st.connOpen = true ∧ name ≠ "" ∧ pw ≠ "" ∧
       ∃ r ∈ st.admins, r.name = name ∧ r.password = pw)) ∧
    (∀ r : AdminRow, st.connOpen = true → name ≠ "" → pw ≠ "" →
      findAdmin st.admins name pw = some r →
      (verifyAdminLogin true st name pw).2.2 =
        { st with isAdminLoggedIn := true, currentAdminId := r.aid,
                  currentAdminName := r.name }) := by
  intro st name pw
  by_cases hconn : st.connOpen = true
  · by_cases hn : name = ""
    · subst hn
      constructor
      · simp [verifyAdminLogin, hconn, show ("" : String).isEmpty = true from rfl]
      · intro r h1 h2; exact absurd rfl h2
    · by_cases hp : pw = ""
      · subst hp
        constructor
        · simp [verifyAdminLogin, hconn, string_isEmpty_false_of_ne name hn,
            show ("" : String).isEmpty = true from rfl]
        · intro r h1 h2 h3; exact absurd rfl h3
      · have hne : name.isEmpty = false := string_isEmpty_false_of_ne name hn
        have hpe : pw.isEmpty = false := string_isEmpty_false_of_ne pw hp
        cases hfind : findAdmin st.admins name pw with
        | some r =>
          have hex : ∃ x ∈ st.admins, x.name = name ∧ x.password = pw :=
            (findAdmin_isSome_iff st.admins name pw).mp (by rw [hfind]; rfl)
          constructor
          · simp only [verifyAdminLogin, hconn, hne, hpe, hfind]
            simp [hconn, hn, hp, hex]
          · intro r' hc hn' hp' hfind'
            obtain rfl : r = r' := by injection hfind'
            simp only [verifyAdminLogin, hconn, hne, hpe, hfind]
            simp
        | none =>
          have hnex : ¬ ∃ x ∈ st.admins, x.name = name ∧ x.password = pw := by
            intro hex
            have := (findAdmin_isSome_iff st.admins name pw).mpr hex
            rw [hfind] at this
            simp at this
          constructor
          · simp only [verifyAdminLogin, hconn, hne, hpe, hfind]
            simp [hnex]
          · intro r' hc hn' hp' hfind'
            exact absurd hfind' (by simp)
  · have hc' : st.connOpen = false := by rwa [Bool.not_eq_true] at hconn
    constructor
    · simp [verifyAdminLogin, hc']
    · intro r h1; exact absurd h1 (by simp [hc'])

/-- Witness for C1 (amended): a concrete successful login against a stored
plaintext password. -/
theorem c1_adminLogin_plaintext_witness :
    (verifyAdminLogin true
      ⟨true, false, -1, "", false, -1, "", "", [⟨1, "admin", "pw12345"⟩], [], []⟩
      "admin" "pw12345").1 = true :=
  (c1_adminLogin_plaintext_iff
    ⟨true, false, -1, "", false, -1, "", "", [⟨1, "admin", "pw12345"⟩], [], []⟩
    "admin" "pw12345").1.mpr
    ⟨rfl, by decide, by decide, ⟨1, "admin", "pw12345"⟩, by decide, rfl, rfl⟩

/-- C10: when an admin login attempt fails on credentials (connection open,
inputs non-empty, query executed, no matching row), the admin session is
actively reset to logged out (id −1, name cleared) whatever it was before;
whereas failures from a closed connection, empty inputs, or a failed query
leave the whole state unchanged. -/
theorem c10_adminLogin_failure_effects : ∀ (st : DBState) (name pw : String) (execOk : Bool),
    (st.connOpen = true → name ≠ "" → pw ≠ "" → execOk = true →
      findAdmin st.admins name pw = none →
      verifyAdminLogin execOk st name pw =
        (false, "用户名或密码错误",
         { st with isAdminLoggedIn := false, currentAdminId := -1, currentAdminName := "" })) ∧
    (st.connOpen = false → verifyAdminLogin execOk st name pw = (false, "数据库未连接", st)) ∧
    (st.connOpen = true → (name = "" ∨ pw = "") →
      verifyAdminLogin execOk st name pw = (false, "用户名或密码不能为空", st)) ∧
    (st.connOpen = true → name ≠ "" → pw ≠ "" → execOk = false →
      verifyAdminLogin execOk st name pw = (false, "查询失败: ", st)) := by
  intro st name pw execOk
  refine ⟨?_, ?_, ?_, ?_⟩
  · intro hconn hn hp hexec hfind
    subst hexec
    simp [verifyAdminLogin, hconn, string_isEmpty_false_of_ne name hn,
      string_isEmpty_false_of_ne pw hp, hfind]
  · intro hc
    simp [verifyAdminLogin, hc]
  · intro hconn hor
    rcases hor with h | h
    · subst h
      simp [verifyAdminLogin, hconn, show ("" : String).isEmpty = true from rfl]
    · subst h
      simp [verifyAdminLogin, hconn, show ("" : String).isEmpty = true from rfl]
  · intro hconn hn hp hexec
    subst hexec
    simp [verifyAdminLogin, hconn, string_isEmpty_false_of_ne name hn,
      string_isEmpty_false_of_ne pw hp]

/-- Witness for C10: a failed re-login with wrong credentials logs the
previously logged-in admin out. -/
theorem c10_adminLogin_failure_witness :
    verifyAdminLogin true
      ⟨true, true, 7, "root", false, -1, "", "", [⟨7, "root", "pw12345"⟩], [], []⟩
      "root" "wrong" =
    (false, "用户名或密码错误",
     ⟨true, false, -1, "", false, -1, "", "", [⟨7, "root", "pw12345"⟩], [], []⟩) :=
  (c10_adminLogin_failure_effects
    ⟨true, true, 7, "root", false, -1, "", "", [⟨7, "root", "pw12345"⟩], [], []⟩
    "root" "wrong" true).1 rfl (by decide) (by decide) rfl (by decide)

/-- Counterexample for C7: the message emitted for a perfectly normal
"no such flight" outcome is identical to the one emitted when the executed
query itself fails, so the not-found outcome is not signaled by a different
reported reason from a query failure, contrary to the claim. -/
theorem c7_notfound_message_cex :
    (queryFlightByNum true true
      ⟨true, false, -1, "", false, -1, "", "", [], [], []⟩ "F1").2 =
    (queryFlightByNum true false
      ⟨true, false, -1, "", false, -1, "", "",
       [], [], [⟨"F1", "A", "B", "2025-01-01 10:00:00", "2025-01-01 12:00:00", 100, 50, 50⟩]⟩
      "F1").2 := by
  decide

/-- C7 (amended): with the connection open and the statement prepared, a
lookup of an absent flight returns the empty result with the combined message
`查询失败：未找到该航班或查询出错！` rather than aborting — the same message an
exec-stage query failure produces; only a closed connection or a prepare
failure is reported differently. -/
theorem c7_queryFlight_notfound : ∀ (st : DBState) (fid : String),
    (st.connOpen = true → findFlight st fid = none →
      queryFlightByNum true true st fid = (none, "查询失败：未找到该航班或查询出错！")) ∧
    (st.connOpen = true →
      queryFlightByNum true false st fid = (none, "查询失败：未找到该航班或查询出错！")) := by
  intro st fid
  constructor
  · intro hconn hfind
    simp [queryFlightByNum, hconn, hfind]
  · intro hconn
    simp [queryFlightByNum, hconn]

/-- Witness for C7 (amended): a concrete absent-id lookup. -/
theorem c7_queryFlight_notfound_witness :
    queryFlightByNum true true ⟨true, false, -1, "", false, -1, "", "", [], [], []⟩ "F9" =
      (none, "查询失败：未找到该航班或查询出错！") :=
  (c7_queryFlight_notfound ⟨true, false, -1, "", false, -1, "", "", [], [], []⟩ "F9").1
    rfl (by decide)

/-- C4: `userRegister` runs its validations in the fixed order — non-empty
fields, email format, password strength, username uniqueness, email
uniqueness — failing fast with the message of the first violated rule and
leaving the store untouched, and hashes and inserts the row only when every
check passed.  (The register operation implemented here takes no confirm
password, so that optional step has no instance.) -/
theorem c4_userRegister_check_order :
    ∀ (hash : String → String) (st : DBState) (email username password : String),
    st.connOpen = true →
    userRegister hash true true st email username password =
      (match firstFailureMsg (userRegisterChecks st email username password) with
       | some msg => (false, msg, st)
       | none =>
         (true, "注册成功！",
          { st with users := st.users ++
              [⟨(st.users.length : Int) + 1, email, username, hash password⟩] })) := by
  intro hash st email username password hconn
  cases h1 : (email.isEmpty || username.isEmpty || password.isEmpty) <;>
    cases h2 : isValidEmailFormat email <;>
      cases h3 : isValidPasswordStrength password <;>
        cases h4 : isUsernameExists st username <;>
          cases h5 : isEmailExists st email <;>
            simp [userRegister, userRegisterChecks, firstFailureMsg, hconn, h1, h2, h3, h4, h5]

/-- Witness for C4: a concrete registration that passes every check and
inserts the hashed row. -/
theorem c4_userRegister_check_order_witness :
    (userRegister modelDigest true true
      ⟨true, false, -1, "", false, -1, "", "", [], [], []⟩ "a@b.com" "alice" "passw0rd").1
      = true := by
  have h := c4_userRegister_check_order modelDigest
    ⟨true, false, -1, "", false, -1, "", "", [], [], []⟩ "a@b.com" "alice" "passw0rd" rfl
  rw [h]
  decide

theorem firstFailureMsg_eq_none_iff (l : List (Bool × String)) :
    firstFailureMsg l = none ↔ ∀ c ∈ l, c.1 = true := by
  induction l with
  | nil => simp [firstFailureMsg]
  | cons c rest ih =>
    rcases c with ⟨ok, m⟩
    cases ok <;> simp [firstFailureMsg, ih]

theorem addFlight_eq_firstFailure :
    ∀ (st : DBState) (fid dep dst dtDep dtArr : String) (price : Rat) (tot rem : Int),
    st.connOpen = true →
    addFlight true true true st fid dep dst dtDep dtArr price tot rem =
      (match firstFailureMsg (addFlightChecks st fid dep dst dtDep dtArr price tot rem) with
       | some msg => (false, msg, st)
       | none =>
         (true, "航班 " ++ fid ++ " 添加成功！",
          { st with flights := st.flights ++
              [⟨fid, dep, dst, dtDep, dtArr, price, tot, rem⟩] })) := by
  intro st fid dep dst dtDep dtArr price tot rem hconn
  by_cases h1 : (fid.isEmpty || dep.isEmpty || dst.isEmpty) = true
  · simp [addFlight, addFlightChecks, firstFailureMsg, hconn, h1]
  · rw [Bool.not_eq_true] at h1
    by_cases a2 : isValidDateTimeFormat dtDep = true
    · by_cases b2 : isValidDateTimeFormat dtArr = true
      · by_cases h3 : dtLtB dtDep dtArr = true
        · by_cases hp : price ≤ 0
          · have hp' : ¬(0 < price) := not_lt.mpr hp
            simp [addFlight, addFlightChecks, firstFailureMsg, hconn, h1, a2, b2, h3, hp, hp']
          · have hp' : 0 < price := not_le.mp hp
            by_cases hseat : tot ≤ 0 ∨ rem < 0 ∨ tot < rem
            · rcases hseat with h | h | h
              · have h' : ¬(0 < tot) := not_lt.mpr h
                simp [addFlight, addFlightChecks, firstFailureMsg, hconn, h1, a2, b2, h3,
                  hp, hp', h, h']
              · have h' : ¬(0 ≤ rem) := not_le.mpr h
                simp [addFlight, addFlightChecks, firstFailureMsg, hconn, h1, a2, b2, h3,
                  hp, hp', h, h']
              · have h' : ¬(rem ≤ tot) := not_le.mpr h
                simp [addFlight, addFlightChecks, firstFailureMsg, hconn, h1, a2, b2, h3,
                  hp, hp', h, h']
            · push_neg at hseat
              obtain ⟨hs1, hs2, hs3⟩ := hseat
              have hs1' : 0 < tot := hs1
              have hs2' : 0 ≤ rem := hs2
              have hs3' : rem ≤ tot := hs3
              by_cases h6 : (findFlight st fid).isSome = true
              · simp [addFlight, addFlightChecks, firstFailureMsg, hconn, h1, a2, b2, h3,
                  hp, hp', hs1, hs2, hs3, hs1', hs2', hs3', h6, not_lt.mpr hs3,
                  not_le.mpr hs1, not_lt.mpr hs2]
              · rw [Bool.not_eq_true] at h6
                simp [addFlight, addFlightChecks, firstFailureMsg, hconn, h1, a2, b2, h3,
                  hp, hp', hs1, hs2, hs3, hs1', hs2', hs3', h6, not_lt.mpr hs3,
                  not_le.mpr hs1, not_lt.mpr hs2]
        · rw [Bool.not_eq_true] at h3
          simp [addFlight, addFlightChecks, firstFailureMsg, hconn, h1, a2, b2, h3]
      · rw [Bool.not_eq_true] at b2
        simp [addFlight, addFlightChecks, firstFailureMsg, hconn, h1, a2, b2]
    · rw [Bool.not_eq_true] at a2
      simp [addFlight, addFlightChecks, firstFailureMsg, hconn, h1, a2]

theorem string_isEmpty_false_iff (s : String) : s.isEmpty = false ↔ s ≠ "" := by
  rw [Bool.eq_false_iff]
  exact not_congr (String.isEmpty_iff s)

theorem addFlightChecks_none_iff :
    ∀ (st : DBState) (fid dep dst dtDep dtArr : String) (price : Rat) (tot rem : Int),
    firstFailureMsg (addFlightChecks st fid dep dst dtDep dtArr price tot rem) = none ↔
      (fid ≠ "" ∧ dep ≠ "" ∧ dst ≠ "" ∧
       isValidDateTimeFormat dtDep = true ∧ isValidDateTimeFormat dtArr = true ∧
       dtLtB dtDep dtArr = true ∧ 0 < price ∧ 0 < tot ∧ 0 ≤ rem ∧ rem ≤ tot ∧
       findFlight st fid = none) := by
  intro st fid dep dst dtDep dtArr price tot rem
  rw [firstFailureMsg_eq_none_iff]
  simp [addFlightChecks, string_isEmpty_false_iff, and_assoc]

/-- C3: with the connection open (and the store answering its queries),
`addFlight` behaves as the ordered validation chain: it returns true exactly
when the id, departure and destination are non-empty, both timestamps match
`YYYY-MM-DD HH:MM:SS`, depart-time strictly precedes arrive-time, the price is
positive, total seats positive, remaining seats between 0 and total, and the
id is not already present; any failed check produces the message of the first
violated rule and leaves the flight table (the whole state) unchanged, and
only the all-pass run inserts the row. -/
theorem c3_addFlight_validation :
    ∀ (st : DBState) (fid dep dst dtDep dtArr : String) (price : Rat) (tot rem : Int),
    st.connOpen = true →
    (addFlight true true true st fid dep dst dtDep dtArr price tot rem =
      (match firstFailureMsg (addFlightChecks st fid dep dst dtDep dtArr price tot rem) with
       | some msg => (false, msg, st)
       | none =>
         (true, "航班 " ++ fid ++ " 添加成功！",
          { st with flights := st.flights ++
              [⟨fid, dep, dst, dtDep, dtArr, price, tot, rem⟩] }))) ∧
    ((addFlight true true true st fid dep dst dtDep dtArr price tot rem).1 = true ↔
      (fid ≠ "" ∧ dep ≠ "" ∧ dst ≠ "" ∧
       isValidDateTimeFormat dtDep = true ∧ isValidDateTimeFormat dtArr = true ∧
       dtLtB dtDep dtArr = true ∧ 0 < price ∧ 0 < tot ∧ 0 ≤ rem ∧ rem ≤ tot ∧
       findFlight st fid = none)) := by
  intro st fid dep dst dtDep dtArr price tot rem hconn
  have hmain := addFlight_eq_firstFailure st fid dep dst dtDep dtArr price tot rem hconn
  refine ⟨hmain, ?_⟩
  rw [hmain]
  have hiff := addFlightChecks_none_iff st fid dep dst dtDep dtArr price tot rem
  cases hm : firstFailureMsg (addFlightChecks st fid dep dst dtDep dtArr price tot rem) with
  | some m =>
    simp only [hm]
    constructor
    · intro h; exact absurd h (by simp)
    · intro hcond
      have := hiff.mpr hcond
      rw [hm] at this
      exact absurd this (by simp)
  | none =>
    simp only [hm]
    simp [hiff.mp hm]

/-- Witness for C3: the specification's concrete scenario flight is accepted
and inserted. -/
theorem c3_addFlight_validation_witness :
    (addFlight true true true ⟨true, false, -1, "", false, -1, "", "", [], [], []⟩
      "F1" "A" "B" "2025-01-01 10:00:00" "2025-01-01 12:00:00" 100 50 50).1 = true := by
  have h := c3_addFlight_validation ⟨true, false, -1, "", false, -1, "", "", [], [], []⟩
    "F1" "A" "B" "2025-01-01 10:00:00" "2025-01-01 12:00:00" 100 50 50 rfl
  rw [h.1]
  decide

/-- C5: with the connection open and the store answering, `updateFlightSeats`
on an existing flight with total seats `T` returns true exactly when
`0 ≤ n ≤ T`; on a non-existent id it returns false with the not-found message
for every `n`, the seat validation never being reached. -/
theorem c5_updateFlightSeats_bounds :
    ∀ (st : DBState) (fid : String) (n : Int) (aff : Bool),
    st.connOpen = true →
    (findFlight st fid = none →
      updateFlightSeats true true true aff st fid n =
        (false, "更新失败：未找到航班 " ++ fid ++ "! ", st)) ∧
    (∀ f : Flight, findFlight st fid = some f →
      ((updateFlightSeats true true true aff st fid n).1 = true ↔
        (0 ≤ n ∧ n ≤ f.totalSeats))) := by
  intro st fid n aff hconn
  constructor
  · intro hfind
    simp [updateFlightSeats, hconn, hfind]
  · intro f hfind
    by_cases hn : n < 0
    · have hn' : ¬(0 ≤ n) := not_le.mpr hn
      simp [updateFlightSeats, hconn, hfind, hn, hn']
    · have hn0 : 0 ≤ n := not_lt.mp hn
      by_cases ht : f.totalSeats < n
      · have ht' : ¬(n ≤ f.totalSeats) := not_le.mpr ht
        simp [updateFlightSeats, hconn, hfind, hn, hn0, ht, ht']
      · have ht0 : n ≤ f.totalSeats := not_lt.mp ht
        simp [updateFlightSeats, hconn, hfind, hn, hn0, ht, ht0]

/-- Witness for C5: updating an existing 50-seat flight to 10 remaining seats
succeeds, and updating a non-existent flight fails with the not-found message. -/
theorem c5_updateFlightSeats_bounds_witness :
    (updateFlightSeats true true true true
      ⟨true, false, -1, "", false, -1, "", "",
       [], [], [⟨"F1", "A", "B", "2025-01-01 10:00:00", "2025-01-01 12:00:00", 100, 50, 50⟩]⟩
      "F1" 10).1 = true :=
  ((c5_updateFlightSeats_bounds
      ⟨true, false, -1, "", false, -1, "", "",
       [], [], [⟨"F1", "A", "B", "2025-01-01 10:00:00", "2025-01-01 12:00:00", 100, 50, 50⟩]⟩
      "F1" 10 true rfl).2
    ⟨"F1", "A", "B", "2025-01-01 10:00:00", "2025-01-01 12:00:00", 100, 50, 50⟩
    (by decide)).mpr (by decide)
